import Mathlib

/-!
Verification of the foundation repository's core components against its
specification: the bounded blocking queue (`ArrayBlockingQueue`), the
cancellable ticker (`TimeTicker`), and the TCP `Socket` with its
`TCPSocketIOTask`.

The C++ sources are shallowly embedded as pure Lean functions over explicit
state records.  Concurrency is modelled sequentially: the mutex is a `Bool`
field of the queue state, a blocking operation that can never proceed
(mutex held, or its wait condition can never become true with no other
thread running) is modelled as returning `none`, and `try_lock` succeeds
exactly when the mutex is currently free.
-/

/-- State of `ArrayBlockingQueue<T, N>`: the backing `std::array` (as a
fixed-length list, so `cap = _queue.length = N`), the circular indices,
the element count, and whether `_mutex` is currently held. -/
structure ABQ (T : Type) where
  _queue : List T
  _put_idx : Nat
  _take_idx : Nat
  _count : Nat
  _locked : Bool
deriving DecidableEq

/-- A freshly constructed queue of capacity `N` (array default-filled with
`d`, both indices and the count zero, mutex free). -/
def ABQ.init (N : Nat) (d : T) : ABQ T :=
  ⟨List.replicate N d, 0, 0, 0, false⟩

/-- `cap()` returns `_queue.max_size()`, which for `std::array<T, N>` is `N`. -/
def ABQ.cap (q : ABQ T) : Nat :=
  q._queue.length

/-- `size()` as the source writes it: `return this->cap() - _count;`. -/
def ABQ.size (q : ABQ T) : Nat :=
  q.cap - q._count

/-- `empty()`: `return _count == 0;`. -/
def ABQ.empty (q : ABQ T) : Bool :=
  q._count == 0

/-- `full()`: `return _count == this->cap();`. -/
def ABQ.full (q : ABQ T) : Bool :=
  q._count == q.cap

/-- `insert(ele)`: write at `_put_idx`, advance it with wrap-around at
`cap()`, increment `_count`.  Both C++ overloads (`T&&` and `const T&`)
perform the same state change. -/
def ABQ.insert (ele : T) (q : ABQ T) : ABQ T :=
  ⟨q._queue.set q._put_idx ele,
   if q._put_idx + 1 = q.cap then 0 else q._put_idx + 1,
   q._take_idx, q._count + 1, q._locked⟩

/-- The element `remove()` returns: `std::move(_queue[_take_idx])`. -/
def ABQ.removeVal [Inhabited T] (q : ABQ T) : T :=
  q._queue.getD q._take_idx default

/-- The state after `remove()`: advance `_take_idx` with wrap-around at
`cap()`, decrement `_count`. -/
def ABQ.removeSt (q : ABQ T) : ABQ T :=
  ⟨q._queue, q._put_idx,
   if q._take_idx + 1 = q.cap then 0 else q._take_idx + 1,
   q._count - 1, q._locked⟩

/-- `push(ele)`: takes the mutex, waits on `_not_full` until `!full()`,
then inserts.  Sequentially, a held mutex or a permanently full queue means
the call never returns (`none`). -/
def ABQ.push (ele : T) (q : ABQ T) : Option (ABQ T) :=
  if q._locked || q.full then none else some (q.insert ele)

/-- `try_push(T&&)` (the rvalue overload): `if (_mutex.try_lock() && !full())`
inserts, unlocks and returns true.  When `try_lock` succeeds but the queue
is full, the short-circuited condition is false and the function returns
false WITHOUT unlocking `_mutex` — the returned state keeps the mutex held. -/
def ABQ.try_push_rv (ele : T) (q : ABQ T) : Bool × ABQ T :=
  if q._locked then (false, q)
  else if q.full then (false, { q with _locked := true })
  else (true, q.insert ele)

/-- `try_push(const T&)` (the lvalue overload): on a full queue it unlocks
before returning false, so the mutex is released on every path. -/
def ABQ.try_push_lv (ele : T) (q : ABQ T) : Bool × ABQ T :=
  if q._locked then (false, q)
  else if q.full then (false, q)
  else (true, q.insert ele)

/-- `wait_push(ele, dur)`: acquires the mutex (blocking forever if held:
`none`), then `wait_for` on `_not_full`; with no other thread running the
predicate's value is stable, so the wait yields `!full()`.  On success it
inserts; on timeout it returns false with the state untouched. -/
def ABQ.wait_push (ele : T) (q : ABQ T) : Option (Bool × ABQ T) :=
  if q._locked then none
  else if q.full then some (false, q)
  else some (true, q.insert ele)

/-- `pop()`: takes the mutex, waits on `_not_empty` until `!empty()`, then
removes and returns the front element.  A held mutex or a permanently
empty queue blocks forever (`none`). -/
def ABQ.pop [Inhabited T] (q : ABQ T) : Option (T × ABQ T) :=
  if q._locked || q.empty then none else some (q.removeVal, q.removeSt)

/-- `try_pop(ele)`: `try_lock`, return false if it fails or the queue is
empty (unlocking first), else remove, unlock and return true. -/
def ABQ.try_pop [Inhabited T] (q : ABQ T) : Bool × Option T × ABQ T :=
  if q._locked then (false, none, q)
  else if q.empty then (false, none, q)
  else (true, some q.removeVal, q.removeSt)

/-- `wait_pop(ele, dur)`: acquires the mutex (`none` if held forever),
`wait_for` on `_not_empty`; on success removes, on timeout returns false
with the state untouched. -/
def ABQ.wait_pop [Inhabited T] (q : ABQ T) : Option (Bool × Option T × ABQ T) :=
  if q._locked then none
  else if q.empty then (some (false, none, q))
  else some (true, some q.removeVal, q.removeSt)

/-- One queue operation, for reasoning about arbitrary call sequences.
`try_push` appears as its two C++ overloads since their full-queue paths
differ. -/
inductive QOp (T : Type) where
  | push (e : T)
  | tryPushRv (e : T)
  | tryPushLv (e : T)
  | waitPush (e : T)
  | pop
  | tryPop
  | waitPop
deriving DecidableEq

/-- The state reached by one operation; a blocked call (`none`) leaves the
state as it was, since the blocked thread has mutated nothing. -/
def QOp.step [Inhabited T] : QOp T → ABQ T → ABQ T
  | .push e, q => (ABQ.push e q).getD q
  | .tryPushRv e, q => (ABQ.try_push_rv e q).2
  | .tryPushLv e, q => (ABQ.try_push_lv e q).2
  | .waitPush e, q => ((ABQ.wait_push e q).map Prod.snd).getD q
  | .pop, q => ((ABQ.pop q).map Prod.snd).getD q
  | .tryPop, q => (ABQ.try_pop q).2.2
  | .waitPop, q => ((ABQ.wait_pop q).map (fun r => r.2.2)).getD q

/-- Run a sequence of queue operations from a starting state. -/
def QOp.run [Inhabited T] (ops : List (QOp T)) (q : ABQ T) : ABQ T :=
  ops.foldl (fun s op => QOp.step op s) q

/-- The data-model invariant of the queue: `0 ≤ count ≤ N` (the lower bound
is inherent to `Nat`) and both indices in `[0, N)`. -/
def QInv (q : ABQ T) : Prop :=
  q._count ≤ q.cap ∧ q._put_idx < q.cap ∧ q._take_idx < q.cap

instance (q : ABQ T) : Decidable (QInv q) := by
  unfold QInv; infer_instance

theorem QInv.insert (ele : T) (q : ABQ T) (hInv : QInv q)
    (hfull : q.full = false) : QInv (q.insert ele) := by
  obtain ⟨hc, hp, ht⟩ := hInv
  have hne : q._count ≠ q.cap := by
    simpa [ABQ.full] using hfull
  simp only [QInv, ABQ.insert, ABQ.cap, List.length_set] at *
  refine ⟨by omega, ?_, ht⟩
  split <;> omega

theorem QInv.removeSt (q : ABQ T) (hInv : QInv q) : QInv q.removeSt := by
  obtain ⟨hc, hp, ht⟩ := hInv
  simp only [QInv, ABQ.removeSt, ABQ.cap] at *
  refine ⟨by omega, hp, ?_⟩
  split <;> omega

theorem QInv.step [Inhabited T] (op : QOp T) (q : ABQ T) (hInv : QInv q) :
    QInv (QOp.step op q) := by
  cases op <;>
    simp only [QOp.step, ABQ.push, ABQ.try_push_rv, ABQ.try_push_lv,
      ABQ.wait_push, ABQ.pop, ABQ.try_pop, ABQ.wait_pop] <;>
    (repeat' split) <;>
    first
      | exact hInv
      | exact QInv.removeSt q hInv
      | (refine QInv.insert _ q hInv ?_; simp_all)

theorem QInv.run [Inhabited T] (ops : List (QOp T)) (q : ABQ T)
    (hInv : QInv q) : QInv (QOp.run ops q) := by
  induction ops generalizing q with
  | nil => simpa [QOp.run] using hInv
  | cons op rest ih =>
      have h1 : QInv (QOp.step op q) := QInv.step op q hInv
      simpa [QOp.run, List.foldl_cons] using ih (QOp.step op q) h1

/-- C1. The claim asserts `size() == count`, but the source computes
`cap() - _count`: on a freshly constructed capacity-2 queue (count 0),
`size()` returns 2, not 0.  This evaluates the code at that failing
input. -/
theorem abq_size_returns_free_capacity :
    ABQ.size (ABQ.init 2 (0 : Int)) = 2 ∧
    (ABQ.init 2 (0 : Int))._count = 0 ∧
    ABQ.size (ABQ.init 2 (0 : Int)) ≠ (ABQ.init 2 (0 : Int))._count := by
  decide

/-- C2. The claimed trace on a capacity-2 queue: `push(1)` and `push(2)`
succeed, and `try_push(3)` (an rvalue, so the `T&&` overload) returns
false — but on its full-queue path that overload never unlocks `_mutex`,
so the state it returns holds the mutex and the following `pop()` blocks
forever (`none`) instead of returning 1 as the claim requires. -/
theorem abq_try_push_full_leaves_mutex_locked :
    ABQ.push 1 (ABQ.init 2 (0 : Int)) = some (ABQ.mk [1, 0] 1 0 1 false) ∧
    ABQ.push 2 (ABQ.mk [1, 0] 1 0 1 false) = some (ABQ.mk [1, 2] 0 0 2 false) ∧
    ABQ.try_push_rv 3 (ABQ.mk [1, 2] 0 0 2 false) =
      (false, ABQ.mk [1, 2] 0 0 2 true) ∧
    ABQ.pop (ABQ.mk [1, 2] 0 0 2 true) = none := by
  decide

/-- C5. For a queue of capacity `N > 0`, every sequence of
push/try_push/wait_push/pop/try_pop/wait_pop calls starting from a fresh
queue keeps `0 ≤ count ≤ N` and both indices in `[0, N)`. -/
theorem abq_invariant_preserved (T : Type) [Inhabited T] (d : T) (N : Nat)
    (hN : 0 < N) (ops : List (QOp T)) : QInv (QOp.run ops (ABQ.init N d)) := by
  refine QInv.run ops _ ?_
  simp only [QInv, ABQ.init, ABQ.cap, List.length_replicate]
  omega

theorem abq_invariant_preserved_witness :
    0 < 2 ∧
      QInv (QOp.run [QOp.push 5, QOp.push 7, QOp.tryPushLv 9, QOp.pop,
        QOp.waitPush 4, QOp.tryPop, QOp.waitPop, QOp.tryPushRv 1]
        (ABQ.init 2 (0 : Int))) :=
  ⟨by decide, abq_invariant_preserved Int 0 2 (by decide) _⟩

/-- C9. With the mutex free, `wait_push` either returns false with the
state exactly as it was, or returns true having performed the insert; a
full queue forces the false/unchanged outcome, and symmetrically an empty
queue forces `wait_pop` to return false with the state unchanged. -/
theorem abq_wait_false_leaves_state_unchanged (T : Type) [Inhabited T]
    (q : ABQ T) (e : T) (hl : q._locked = false) :
    (ABQ.wait_push e q = some (false, q) ∨
      ABQ.wait_push e q = some (true, q.insert e)) ∧
    (q.full = true → ABQ.wait_push e q = some (false, q)) ∧
    (q.empty = true → ABQ.wait_pop q = some (false, none, q)) := by
  unfold ABQ.wait_push ABQ.wait_pop
  simp only [hl, Bool.false_eq_true, if_false]
  refine ⟨?_, ?_, ?_⟩
  · split <;> simp
  · intro hf
    simp [hf]
  · intro he
    simp [he]

theorem abq_wait_false_leaves_state_unchanged_witness :
    (ABQ.init 2 (0 : Int))._locked = false ∧
    ((ABQ.wait_push 5 (ABQ.init 2 (0 : Int)) =
        some (false, ABQ.init 2 (0 : Int)) ∨
      ABQ.wait_push 5 (ABQ.init 2 (0 : Int)) =
        some (true, (ABQ.init 2 (0 : Int)).insert 5)) ∧
     ((ABQ.init 2 (0 : Int)).full = true →
       ABQ.wait_push 5 (ABQ.init 2 (0 : Int)) =
         some (false, ABQ.init 2 (0 : Int))) ∧
     ((ABQ.init 2 (0 : Int)).empty = true →
       ABQ.wait_pop (ABQ.init 2 (0 : Int)) =
         some (false, none, ABQ.init 2 (0 : Int)))) :=
  ⟨by decide,
   abq_wait_false_leaves_state_unchanged Int (ABQ.init 2 (0 : Int)) 5 (by decide)⟩

/-- Outcome of the `select` call inside `TimeTicker::tick`: an error
return (`-1`), a timeout (return 0, read set cleared), or readiness of
the pipe's read end (`FD_ISSET` true). -/
inductive SelectOutcome where
  | error
  | timeout
  | readable
deriving DecidableEq

/-- The error `tick` raises when `select` itself fails
(`throw std::runtime_error`). -/
inductive TickError where
  | selectError
deriving DecidableEq

/-- `TimeTicker::tick()` as a function of the `select` outcome: throw on
`-1`, otherwise return whether `FD_ISSET(_pipefds[0], &_readfds)` — true
exactly when the pipe became readable, false when the wait timed out. -/
def TimeTicker.tick (r : SelectOutcome) : Except TickError Bool :=
  match r with
  | SelectOutcome.error => Except.error TickError.selectError
  | SelectOutcome.timeout => Except.ok false
  | SelectOutcome.readable => Except.ok true

/-- State of the ticker's control channel (self-pipe): the number of
marker bytes written by `cancel()` and not yet read.  `tick` contains no
`read` on `_pipefds[0]`, so no operation ever decreases it. -/
structure TickerState where
  pending : Nat
deriving DecidableEq

/-- `TimeTicker::cancel()`: `write(_pipefds[1], "1", 1)` — one more
unread marker byte in the pipe. -/
def TimeTicker.cancel (s : TickerState) : TickerState :=
  ⟨s.pending + 1⟩

/-- What `select` reports for the pipe's read end: readable exactly when
unread bytes are pending (then it returns immediately, before any
timeout); with no pending byte and no concurrent writer it times out. -/
def TimeTicker.selectOn (s : TickerState) : SelectOutcome :=
  if 0 < s.pending then SelectOutcome.readable else SelectOutcome.timeout

/-- A whole `tick()` call on the channel state: run `select`, return the
boolean result; the pipe is untouched because `tick` never reads from it.
The timeout argument `_tmo` is irrelevant to the result whenever a marker
is pending (`select` returns immediately). -/
def TimeTicker.tickRun (_tmo : Nat) (s : TickerState) : Bool × TickerState :=
  match TimeTicker.tick (TimeTicker.selectOn s) with
  | Except.ok b => (b, s)
  | Except.error _ => (false, s)

/-- `k` consecutive `tick()` calls (each with its own timeout), returning
the final channel state. -/
def TimeTicker.tickIter : List Nat → TickerState → TickerState
  | [], s => s
  | tmo :: rest, s => TimeTicker.tickIter rest (TimeTicker.tickRun tmo s).2

/-- C6. `tick()` returns true when the channel's read side became
readable before the timeout, false on timeout, and raises the error when
the underlying `select` call errors. -/
theorem ticker_tick_outcomes :
    TimeTicker.tick SelectOutcome.readable = Except.ok true ∧
    TimeTicker.tick SelectOutcome.timeout = Except.ok false ∧
    TimeTicker.tick SelectOutcome.error = Except.error TickError.selectError :=
  ⟨rfl, rfl, rfl⟩

theorem ticker_tickRun_state (tmo : Nat) (s : TickerState) :
    (TimeTicker.tickRun tmo s).2 = s := by
  unfold TimeTicker.tickRun
  rcases TimeTicker.tick (TimeTicker.selectOn s) with _ | _ <;> rfl

theorem ticker_tickIter_id (tmos : List Nat) (s : TickerState) :
    TimeTicker.tickIter tmos s = s := by
  induction tmos generalizing s with
  | nil => rfl
  | cons tmo rest ih =>
      simpa [TimeTicker.tickIter, ticker_tickRun_state] using
        ih (TimeTicker.tickRun tmo s).2

/-- C10. `tick()` never consumes the wake marker: after one `cancel()`,
any number of `tick()` calls leave the channel state unchanged, and every
one of them — whatever its timeout — returns true. -/
theorem ticker_tick_never_consumes_marker (s : TickerState) (tmos : List Nat)
    (tmo : Nat) :
    TimeTicker.tickIter tmos (TimeTicker.cancel s) = TimeTicker.cancel s ∧
    (TimeTicker.tickRun tmo (TimeTicker.tickIter tmos (TimeTicker.cancel s))).1
      = true := by
  refine ⟨ticker_tickIter_id tmos _, ?_⟩
  rw [ticker_tickIter_id tmos _]
  simp [TimeTicker.tickRun, TimeTicker.selectOn, TimeTicker.cancel,
    TimeTicker.tick]

/-- The two heap-allocated descriptors a `Socket` owns: `_protocol` and
`_remote_address`, both allocated with `new` in the constructors. -/
inductive SockResource where
  | protocol
  | remoteAddress
deriving DecidableEq

/-- The deletes performed by `Socket::~Socket()`, in order: the body is
exactly `delete _remote_address;` — `_protocol` is never freed. -/
def Socket.destructorReleases : List SockResource :=
  [SockResource.remoteAddress]

/-- C3. The claim requires both owned descriptors to be released exactly
once at destruction; the destructor releases `_remote_address` once but
`_protocol` zero times (a leak), contradicting the claim. -/
theorem socket_destructor_releases_only_remote :
    Socket.destructorReleases.count SockResource.remoteAddress = 1 ∧
    Socket.destructorReleases.count SockResource.protocol = 0 := by
  decide

/-- Observable actions of the socket's asynchronous I/O path: registering
interest with the executor, performing a recv/send syscall, or invoking
the completion callback. -/
inductive NetAction where
  | registerInterest (ops : Nat)
  | doSyscall
  | invokeCallback (bytes : Nat) (isError : Bool)
deriving DecidableEq

/-- `Selectable::OP` bit flags (distinct bits; the concrete values do not
affect any theorem below). -/
def Selectable.READ : Nat := 1

def Selectable.WRITE : Nat := 2

def Selectable.EXCEPT : Nat := 4

def Selectable.REMOTE_CLOSE : Nat := 8

/-- `Socket::TCPSocketIOTask::operator()(ops)`: the fixed-precedence
dispatch chain `EXCEPT`, `REMOTE_CLOSE`, `READ`, `WRITE` — every branch
body in the source is empty, so no action is ever produced. -/
def TCPSocketIOTask.dispatch (ops : Nat) : List NetAction :=
  if ops &&& Selectable.EXCEPT ≠ 0 then []
  else if ops &&& Selectable.REMOTE_CLOSE ≠ 0 then []
  else if ops &&& Selectable.READ ≠ 0 then []
  else if ops &&& Selectable.WRITE ≠ 0 then []
  else []

/-- `Socket::TCPSocketIOTask::interest()`: `return 0;` — no op bit set. -/
def TCPSocketIOTask.interest : Nat := 0

/-- Actions performed by `Socket::recv(data, size, executor, cb)`: the
function body is empty. -/
def Socket.recvEffects : List NetAction := []

/-- Actions performed by `Socket::send(data, size, executor, cb)`: the
function body is empty. -/
def Socket.sendEffects : List NetAction := []

/-- C4. The claim requires `recv`/`send` to register READ/WRITE interest
and the task to perform the syscall and invoke the callback exactly once
on readiness; in the source, `recv`, `send` and every dispatch branch are
empty stubs and `interest()` is 0, so nothing is registered and the
callback is invoked zero times, never once. -/
theorem socket_recv_send_unimplemented :
    Socket.recvEffects = [] ∧
    Socket.sendEffects = [] ∧
    TCPSocketIOTask.interest = 0 ∧
    ∀ ops : Nat, TCPSocketIOTask.dispatch ops = [] := by
  refine ⟨rfl, rfl, rfl, ?_⟩
  intro ops
  unfold TCPSocketIOTask.dispatch
  repeat' split
  all_goals rfl

/-- The `NetException` thrown when the `close` syscall fails
(`strerror(errno)`). -/
inductive NetException where
  | ioError
deriving DecidableEq

/-- The fields of `Socket` that `close()` consults and mutates: the
`_open` flag and the native descriptor. -/
structure SockState where
  _open : Bool
  _native_handle : Int
deriving DecidableEq

/-- `Socket::close()` given the result `res` the `::close` syscall would
return.  Returns the new state, whether the syscall was performed, and
the exception raised if it failed.  The early return fires when `_open`
is already false or the handle is invalid; otherwise `_open` is cleared
before the syscall, whose nonzero result throws. -/
def Socket.close (res : Int) (s : SockState) : SockState × Bool × Option NetException :=
  if s._open = false ∨ s._native_handle < 1 then (s, false, none)
  else if res ≠ 0 then ({ s with _open := false }, true, some NetException.ioError)
  else ({ s with _open := false }, true, none)

/-- C7. From an open socket with a valid handle: the first `close()` with
a succeeding syscall clears `_open` and raises nothing; every later
`close()` — whatever `::close` would return — performs no syscall and
changes nothing; and a failing first syscall surfaces the I/O error. -/
theorem socket_close_idempotent (s : SockState) (h1 : s._open = true)
    (h2 : 1 ≤ s._native_handle) :
    Socket.close 0 s = ({ s with _open := false }, true, none) ∧
    (∀ res : Int, Socket.close res { s with _open := false } =
      ({ s with _open := false }, false, none)) ∧
    (∀ res : Int, res ≠ 0 → Socket.close res s =
      ({ s with _open := false }, true, some NetException.ioError)) := by
  refine ⟨?_, ?_, ?_⟩
  · simp [Socket.close, h1]
    omega
  · intro res
    simp [Socket.close]
  · intro res hres
    simp [Socket.close, h1, hres]
    omega

theorem socket_close_idempotent_witness :
    (SockState.mk true 3)._open = true ∧
    1 ≤ (SockState.mk true 3)._native_handle ∧
    (Socket.close 0 (SockState.mk true 3) =
      ({ SockState.mk true 3 with _open := false }, true, none) ∧
     (∀ res : Int, Socket.close res { SockState.mk true 3 with _open := false } =
       ({ SockState.mk true 3 with _open := false }, false, none)) ∧
     (∀ res : Int, res ≠ 0 → Socket.close res (SockState.mk true 3) =
       ({ SockState.mk true 3 with _open := false }, true,
        some NetException.ioError))) :=
  ⟨by decide, by decide,
   socket_close_idempotent (SockState.mk true 3) (by decide) (by decide)⟩

/-- The value `connect()` stores into `s_addr.sin_addr.s_addr`: the
wildcard `INADDR_ANY` when the bound address's ip string is empty,
otherwise the literal `inet_addr(ip)`. -/
inductive SinAddrField where
  | wildcard
  | literal (ip : String)
deriving DecidableEq

/-- The address choice in `Socket::connect()`: `if (ip.empty())` use
`htonl(INADDR_ANY)`, else `inet_addr(ip.c_str())`. -/
def Socket.connectSinAddr (ip : String) : SinAddrField :=
  if ip.isEmpty then SinAddrField.wildcard else SinAddrField.literal ip

/-- `Socket::connect()` given the raw result `sysret` of the non-blocking
`::connect` syscall: builds the address (port goes into `s_addr` via
`Posix::sock_address`; unused by any property here) and returns `sysret`
unchanged — the `if (ret == 0)` body is empty and nothing blocks. -/
def Socket.connect (ip : String) (_port : Nat) (sysret : Int) :
    SinAddrField × Int :=
  (Socket.connectSinAddr ip, sysret)

/-- C8. `connect()` treats an empty ip as the wildcard (bind-all) address
— and only then — and always hands back the raw non-blocking `::connect`
result code unchanged. -/
theorem socket_connect_wildcard_and_raw_ret (ip : String) (port : Nat)
    (r : Int) :
    (Socket.connect ip port r).2 = r ∧
    (ip.isEmpty = true → (Socket.connect ip port r).1 = SinAddrField.wildcard) ∧
    (ip.isEmpty = false → (Socket.connect ip port r).1 = SinAddrField.literal ip) := by
  refine ⟨rfl, ?_, ?_⟩
  · intro he
    simp [Socket.connect, Socket.connectSinAddr, he]
  · intro hne
    simp [Socket.connect, Socket.connectSinAddr, hne]

theorem socket_connect_wildcard_and_raw_ret_witness :
    (Socket.connect (String.mk []) 8080 (-1)).2 = -1 ∧
    (String.mk []).isEmpty = true ∧
    (Socket.connect (String.mk []) 8080 (-1)).1 = SinAddrField.wildcard :=
  ⟨(socket_connect_wildcard_and_raw_ret (String.mk []) 8080 (-1)).1,
   by decide,
   (socket_connect_wildcard_and_raw_ret (String.mk []) 8080 (-1)).2.1 (by decide)⟩
